import Mathlib

/-!
Verification of the pytgcalls core subsystems against their specification:
the media-source resolution pipeline (`pytgcalls/types/stream/media_stream.py`)
and the predicate filter engine (`pytgcalls/filters.py`).

Machine integers are modelled as `Nat`; the flag bitmasks fit in a few bits and
never overflow.  Python exceptions are modelled with `Except`; the asynchronous
calls in the source are sequential within one resolution, so they are modelled
as ordinary function calls on an explicit environment of stubs.
-/

/-! ## FlagSet: `MediaStream.Flags` and `MediaStream._filter_flags`

Source: `src/pytgcalls/types/stream/media_stream.py`, lines 30-34 and 218-235.
The `Flags` members are produced by `auto()` on the `Flag` base class, so
`AUTO_DETECT = 1`, `REQUIRED = 2`, `IGNORE = 4`, `NO_LATENCY = 8`.
The `Flag` base class itself (`pytgcalls/types/flag.py`) is not among the
provided sources; following the spec (section 4.1) a flag value is a plain
integer bitmask, `&`/`|` are the integer bitwise operations, and
`flags & ~combined_flags_value` selects the bits outside the detection-bit
group, which for a natural number is `(flags >>> 3) <<< 3`.
-/

def MediaStream.AUTO_DETECT : Nat := 1

def MediaStream.REQUIRED : Nat := 2

def MediaStream.IGNORE : Nat := 4

def MediaStream.NO_LATENCY : Nat := 8

/-- Value of the source's `combined_flags_value`: the sum of the three
detection-mode flags, `AUTO_DETECT + IGNORE + REQUIRED = 7`. -/
def MediaStream.combined_flags_value : Nat :=
  MediaStream.AUTO_DETECT + MediaStream.IGNORE + MediaStream.REQUIRED

/-- `MediaStream._filter_flags` (media_stream.py lines 218-235).
A `None` argument is falsy in Python exactly like the empty bitmask, so the
optional argument is modelled by `0`.  Step by step, as in the source:
if the input is falsy it becomes the lowest detection flag (`AUTO_DETECT`);
if any bit outside the detection group is set, `AUTO_DETECT` is or-ed in;
`potential_flag` is the largest detection flag present (the source's `max`
over the non-empty filtered list, whose final fallback `AUTO_DETECT` is only
reached when the `AUTO_DETECT` bit itself is set); the result keeps the bits
outside the detection group plus `potential_flag` alone. -/
def MediaStream.filter_flags (flags : Nat) : Nat :=
  let flags := if flags = 0 then MediaStream.AUTO_DETECT else flags
  let flags :=
    if (flags >>> 3) <<< 3 ≠ 0 then flags ||| MediaStream.AUTO_DETECT else flags
  let potential_flag :=
    if flags &&& MediaStream.IGNORE ≠ 0 then MediaStream.IGNORE
    else if flags &&& MediaStream.REQUIRED ≠ 0 then MediaStream.REQUIRED
    else MediaStream.AUTO_DETECT
  ((flags >>> 3) <<< 3) ||| potential_flag

/-! ### Arithmetic bridges for the bitwise operations -/

theorem nat_shiftRight_three (x : Nat) : x >>> 3 = x / 8 := by
  rw [Nat.shiftRight_eq_div_pow]

theorem nat_shiftLeft_three (x : Nat) : x <<< 3 = x * 8 := by
  rw [Nat.shiftLeft_eq_mul_pow]
  norm_num

theorem nat_and_four (y : Nat) : y &&& 4 = y / 4 % 2 * 4 := by
  have h := Nat.and_two_pow y 2
  rw [Nat.testBit_to_div_mod] at h
  norm_num at h
  rcases Nat.mod_two_eq_zero_or_one (y / 4) with h2 | h2 <;> simp [h2] at h ⊢ <;> omega

theorem nat_and_two (y : Nat) : y &&& 2 = y / 2 % 2 * 2 := by
  have h := Nat.and_two_pow y 1
  rw [Nat.testBit_to_div_mod] at h
  norm_num at h
  rcases Nat.mod_two_eq_zero_or_one (y / 2) with h2 | h2 <;> simp [h2] at h ⊢ <;> omega

theorem nat_and_seven (y : Nat) : y &&& 7 = y % 8 := by
  have h := Nat.and_pow_two_sub_one_eq_mod y 3
  norm_num at h
  exact h

theorem nat_or_one (y : Nat) : y ||| 1 = 2 * (y / 2) + 1 := by
  have hd : (y ||| 1) / 2 = y / 2 := by
    rw [Nat.or_div_two]
    norm_num
  have hm : (y ||| 1) % 2 = 1 := Nat.or_mod_two_eq_one.mpr (Or.inr rfl)
  omega

theorem nat_mul8_or (a b : Nat) (h : b < 8) : a * 8 ||| b = a * 8 + b := by
  have h8 : b < 2 ^ 3 := by norm_num; omega
  have h2 := Nat.mul_add_lt_is_or h8 a
  norm_num at h2
  rw [Nat.mul_comm a 8]
  exact h2.symm

/-- Arithmetic characterization of `MediaStream.filter_flags`: the bits above
the detection group pass through, and the detection part of the result is the
numerically largest detection bit of the input (`AUTO_DETECT` for the empty
input). -/
theorem MediaStream.filter_flags_eq (x : Nat) :
    MediaStream.filter_flags x =
      if x = 0 then 1
      else x / 8 * 8 +
        (if x / 4 % 2 = 1 then 4 else if x / 2 % 2 = 1 then 2 else 1) := by
  by_cases hx : x = 0
  · subst hx
    decide
  · simp only [MediaStream.filter_flags, MediaStream.AUTO_DETECT, MediaStream.REQUIRED,
      MediaStream.IGNORE, if_neg hx, nat_shiftRight_three, nat_shiftLeft_three]
    by_cases h8 : x / 8 = 0
    · simp only [h8, Nat.zero_mul, ne_eq, not_true_eq_false, if_false, if_neg hx,
        nat_and_four, nat_and_two, Nat.zero_or]
      split_ifs <;> omega
    · have hcond : x / 8 * 8 ≠ 0 := by omega
      simp only [ne_eq, hcond, not_false_eq_true, if_true, if_neg hx, nat_or_one,
        nat_and_four, nat_and_two]
      split_ifs <;> rw [nat_mul8_or _ _ (by omega)] <;> omega

/-- Claim C4: for every input bit combination (including invalid or future
bits and the empty combination), the result of `MediaStream._filter_flags`
has exactly one of the three detection-mode bits `AUTO_DETECT`, `REQUIRED`,
`IGNORE` set: its intersection with the detection-bit mask is exactly one of
the three single-bit values. -/
theorem C4_filter_flags_exactly_one_detection_bit (x : Nat) :
    MediaStream.filter_flags x &&& MediaStream.combined_flags_value
        = MediaStream.AUTO_DETECT
    ∨ MediaStream.filter_flags x &&& MediaStream.combined_flags_value
        = MediaStream.REQUIRED
    ∨ MediaStream.filter_flags x &&& MediaStream.combined_flags_value
        = MediaStream.IGNORE := by
  have h7 : MediaStream.combined_flags_value = 7 := rfl
  rw [h7, nat_and_seven, MediaStream.filter_flags_eq,
    MediaStream.AUTO_DETECT, MediaStream.REQUIRED, MediaStream.IGNORE]
  split_ifs <;> omega

/-- Canonical values (one detection bit, arbitrary high bits) are fixed points
of `MediaStream.filter_flags`. -/
theorem MediaStream.filter_flags_fixed_point (q p : Nat)
    (hp : p = 4 ∨ p = 2 ∨ p = 1) :
    MediaStream.filter_flags (q * 8 + p) = q * 8 + p := by
  have h0 : q * 8 + p ≠ 0 := by omega
  rw [MediaStream.filter_flags_eq, if_neg h0]
  have h1 : (q * 8 + p) / 8 = q := by omega
  rcases hp with h | h | h <;> subst h
  · have h2 : (q * 8 + 4) / 4 % 2 = 1 := by omega
    rw [h1, h2]
    norm_num
  · have h2 : (q * 8 + 2) / 4 % 2 = 0 := by omega
    have h3 : (q * 8 + 2) / 2 % 2 = 1 := by omega
    rw [h1, h2, h3]
    norm_num
  · have h2 : (q * 8 + 1) / 4 % 2 = 0 := by omega
    have h3 : (q * 8 + 1) / 2 % 2 = 0 := by omega
    rw [h1, h2, h3]
    norm_num

/-- Claim C5: `MediaStream._filter_flags` is idempotent: canonicalizing the
canonical result yields the same value, for every input bit combination. -/
theorem C5_filter_flags_idempotent (x : Nat) :
    MediaStream.filter_flags (MediaStream.filter_flags x)
      = MediaStream.filter_flags x := by
  rw [MediaStream.filter_flags_eq x]
  by_cases hx : x = 0
  · rw [if_pos hx]
    decide
  · rw [if_neg hx]
    have hp1 : (if x / 4 % 2 = 1 then 4 else if x / 2 % 2 = 1 then 2 else 1)
        = 4
      ∨ (if x / 4 % 2 = 1 then 4 else if x / 2 % 2 = 1 then 2 else 1) = 2
      ∨ (if x / 4 % 2 = 1 then 4 else if x / 2 % 2 = 1 then 2 else 1) = 1 := by
      split_ifs <;> simp
    rcases hp1 with h | h | h <;> rw [h] <;>
      exact MediaStream.filter_flags_fixed_point (x / 8) _ (by simp)

/-- Claim C6: when several detection-mode bits are set, canonicalization keeps
only the numerically largest one and preserves the modifier bits (the bits
above the detection group, `8 * m`): `REQUIRED | IGNORE` plus any modifiers
canonicalizes to `IGNORE` plus the same modifiers, and `AUTO_DETECT | REQUIRED`
plus any modifiers canonicalizes to `REQUIRED` plus the same modifiers. -/
theorem C6_filter_flags_largest_detection_bit_wins (m : Nat) :
    MediaStream.filter_flags
        ((MediaStream.REQUIRED ||| MediaStream.IGNORE) + 8 * m)
      = MediaStream.IGNORE + 8 * m
    ∧ MediaStream.filter_flags
        ((MediaStream.AUTO_DETECT ||| MediaStream.REQUIRED) + 8 * m)
      = MediaStream.REQUIRED + 8 * m := by
  have h1 : MediaStream.REQUIRED ||| MediaStream.IGNORE = 6 := rfl
  have h2 : MediaStream.AUTO_DETECT ||| MediaStream.REQUIRED = 3 := rfl
  rw [h1, h2, MediaStream.filter_flags_eq, MediaStream.filter_flags_eq,
    MediaStream.IGNORE, MediaStream.REQUIRED]
  constructor
  · split_ifs <;> omega
  · split_ifs <;> omega

/-! ## Media source resolution: `MediaStream.check_stream`

Source: `src/pytgcalls/types/stream/media_stream.py`, lines 36-128 (`__init__`)
and 130-216 (`check_stream`).  The external collaborators are stubs supplied in
an environment record:

* `ffmpeg.check_stream` (the probe) classifies a locator by either returning
  normally or raising `ImageSourceFound`, `LiveStreamFound`,
  `NoVideoSourceFound` or `NoAudioSourceFound`; it is modelled as a function
  into the closed `ProbeResult` enumeration, one stub per media kind since the
  two probe calls pass the kind's own target parameters.
* `YtDlp.is_valid` is a pure predicate on the locator, and `YtDlp.extract`
  returns the pair (video link, audio link) (source indexes `links[0]` and
  `links[1]`).

Target parameters (`AudioParameters` and `VideoParameters` values) are carried
opaquely by the source: no claim inspects them, so they are omitted from the
state and from the stub signatures.  The asynchronous awaits are sequential,
so they are plain calls.
-/

/-- Outcome of one probe call, the closed classification named by the raised
exception in the source (a normal return is `ok`). -/
inductive ProbeResult
  | ok
  | imageSourceFound
  | liveStreamFound
  | noVideoSourceFound
  | noAudioSourceFound
deriving DecidableEq

/-- Exception escaping `MediaStream.check_stream`.  `attributeError` models
the Python `AttributeError` raised when `.path` is assigned on an absent
stream object (unreachable from states built by `__init__`). -/
inductive StreamError
  | noVideoSourceFound
  | noAudioSourceFound
  | imageSourceFound
  | liveStreamFound
  | attributeError
deriving DecidableEq

/-- Which media kind a `build_command` invocation was made for. -/
inductive BuildKind
  | video
  | audio
deriving DecidableEq

/-- One recorded invocation of `ffmpeg.build_command` with the arguments the
orchestrator passed (the constant tool name `ffmpeg` and the empty-list
placeholder for the target parameters are not repeated here). -/
structure BuildCall where
  kind : BuildKind
  ffmpeg_parameters : Option String
  path : Option String
  imageCommands : List String
  headers : Option String
  isLive : Bool
deriving DecidableEq

/-- Modelled from the spec: `ffmpeg.build_command` (in `pytgcalls/ffmpeg.py`)
is not among the provided sources.  Per spec section 4.4 it is a pure, total,
deterministic function producing the transcoder argument list; the caller's
raw parameter string is injected at a fixed position, extra (image-loop)
arguments are inserted in a fixed position immediately ahead of the
input-locator argument, headers are propagated, and the treat-as-live switch
removes the duration-dependent tail.  The concrete spelling of the header and
duration arguments is not fixed by the spec; representative fixed literals are
used, which no claim depends on. -/
def build_command (tool : String) (ffmpeg_parameters : Option String)
    (path : Option String) (imageCommands : List String)
    (headers : Option String) (isLive : Bool) : List String :=
  tool ::
    (ffmpeg_parameters.toList ++ imageCommands ++ path.toList
      ++ (match headers with
          | some h => ["-headers", h]
          | none => [])
      ++ (if isLive then [] else ["-to", "0"]))

/-- Argument list produced by replaying a recorded `build_command` call. -/
def BuildCall.args (c : BuildCall) : List String :=
  build_command "ffmpeg" c.ffmpeg_parameters c.path c.imageCommands c.headers
    c.isLive

/-- Environment of external stubs consumed by one resolution. -/
structure Env where
  is_valid : Option String → Bool
  extract : Option String → String × String
  probeVideo : Option String → ProbeResult
  probeAudio : Option String → ProbeResult

/-- State of one `MediaStream` object.  `stream_video` and `stream_audio`
hold the pipeline's argument list when the pipeline is present (`None` in the
source when it is absent); the source stores the space-joined string, which
carries the same information. -/
structure MediaStreamState where
  media_path : Option String
  audio_path : Option String
  audio_flags : Nat
  video_flags : Nat
  headers : Option String
  ffmpeg_parameters : Option String
  ytdlp_parameters : Option String
  stream_audio : Option (List String)
  stream_video : Option (List String)
deriving DecidableEq

/-- Python falsiness of an optional string: `None` and the empty string. -/
def pyFalsy : Option String → Bool
  | none => true
  | some s => s = ""

/-- The fixed image-loop arguments built in the source (media_stream.py lines
153-158). -/
def image_commands_list : List String := ["-loop", "1", "-framerate", "1"]

/-- `MediaStream.__init__` (media_stream.py lines 36-128) restricted to the
fields the resolution step reads.  Paths arrive already rendered to strings
(the `Path`/`DeviceInfo`/`ScreenInfo` cases only differ in how that string is
produced); a flags argument of `None` is the falsy bitmask `0`.  The parent
constructor builds the provisional pipelines unless the kind's canonical
flags contain `IGNORE`. -/
def MediaStream.init (media_path audio_path : Option String)
    (audio_flags video_flags : Nat)
    (headers ffmpeg_parameters ytdlp_parameters : Option String) :
    MediaStreamState :=
  let af := MediaStream.filter_flags audio_flags
  let vf := MediaStream.filter_flags video_flags
  { media_path := media_path
    audio_path := audio_path
    audio_flags := af
    video_flags := vf
    headers := headers
    ffmpeg_parameters := ffmpeg_parameters
    ytdlp_parameters := ytdlp_parameters
    stream_audio :=
      if af &&& MediaStream.IGNORE ≠ 0 then none
      else some (build_command "ffmpeg" ffmpeg_parameters audio_path [] headers
        false)
    stream_video :=
      if vf &&& MediaStream.IGNORE ≠ 0 then none
      else some (build_command "ffmpeg" ffmpeg_parameters media_path [] headers
        false) }

/-- Inner try of the video branch (media_stream.py lines 141-160): a probe
outcome is turned into the pair (image commands, live flag), while the
missing-track exceptions escape to the outer handler. -/
def video_probe_classify : ProbeResult → Except StreamError (List String × Bool)
  | ProbeResult.ok => Except.ok ([], false)
  | ProbeResult.imageSourceFound => Except.ok (image_commands_list, false)
  | ProbeResult.liveStreamFound => Except.ok ([], true)
  | ProbeResult.noVideoSourceFound => Except.error StreamError.noVideoSourceFound
  | ProbeResult.noAudioSourceFound => Except.error StreamError.noAudioSourceFound

/-- Inner try of the audio branch (media_stream.py lines 190-201): only
`LiveStreamFound` is caught there, every other exception escapes. -/
def audio_probe_classify : ProbeResult → Except StreamError Bool
  | ProbeResult.ok => Except.ok false
  | ProbeResult.liveStreamFound => Except.ok true
  | ProbeResult.noAudioSourceFound => Except.error StreamError.noAudioSourceFound
  | ProbeResult.noVideoSourceFound => Except.error StreamError.noVideoSourceFound
  | ProbeResult.imageSourceFound => Except.error StreamError.imageSourceFound

/-- Link extraction step of the video branch (media_stream.py lines 132-140):
when `YtDlp.is_valid` recognizes the locator, replace it by the extracted
video link, and share the extracted audio link when no (truthy) explicit
audio locator was given. -/
def MediaStream.after_extract (env : Env) (s : MediaStreamState) :
    MediaStreamState :=
  if env.is_valid s.media_path then
    let links := env.extract s.media_path
    { s with
      media_path := some links.1
      audio_path :=
        if pyFalsy s.audio_path then some links.2 else s.audio_path }
  else s

/-- Audio-locator defaulting (media_stream.py lines 177-178): a falsy audio
locator inherits the (possibly link-extracted) video locator. -/
def MediaStream.default_audio (s : MediaStreamState) : MediaStreamState :=
  { s with
    audio_path := if pyFalsy s.audio_path then s.media_path else s.audio_path }

/-- Audio-side link extraction (media_stream.py lines 181-188): a recognized
audio locator is replaced by the extracted audio link (`links[1]`). -/
def MediaStream.audio_extract (env : Env) (s : MediaStreamState) :
    MediaStreamState :=
  if env.is_valid s.audio_path then
    { s with audio_path := some (env.extract s.audio_path).2 }
  else s

/-- Video half of `MediaStream.check_stream` (media_stream.py lines 131-175):
skip when the canonical video flags contain `IGNORE`; otherwise resolve the
locator through the link extractor when recognized (sharing the audio link
when no explicit audio locator was given), probe, and on a usable outcome
rebuild the video invocation; on `NoVideoSourceFound` re-raise when `REQUIRED`
else drop the video pipeline.  The second component is the log of
`build_command` invocations. -/
def MediaStream.video_phase (env : Env) (s : MediaStreamState) :
    Except StreamError MediaStreamState × List BuildCall :=
  if s.video_flags &&& MediaStream.IGNORE = 0 then
    let s := MediaStream.after_extract env s
    match video_probe_classify (env.probeVideo s.media_path) with
    | Except.ok (image_commands, live_stream) =>
      let call : BuildCall :=
        { kind := BuildKind.video
          ffmpeg_parameters := s.ffmpeg_parameters
          path := s.media_path
          imageCommands := image_commands
          headers := s.headers
          isLive := live_stream }
      match s.stream_video with
      | none => (Except.error StreamError.attributeError, [call])
      | some _ => (Except.ok { s with stream_video := some call.args }, [call])
    | Except.error StreamError.noVideoSourceFound =>
      if s.video_flags &&& MediaStream.REQUIRED ≠ 0 then
        (Except.error StreamError.noVideoSourceFound, [])
      else (Except.ok { s with stream_video := none }, [])
    | Except.error e => (Except.error e, [])
  else (Except.ok s, [])

/-- Audio half of `MediaStream.check_stream` (media_stream.py lines 180-216),
applied after the audio-locator defaulting of lines 177-178. -/
def MediaStream.audio_phase (env : Env) (s : MediaStreamState) :
    Except StreamError MediaStreamState × List BuildCall :=
  if s.audio_flags &&& MediaStream.IGNORE = 0 then
    let s := MediaStream.audio_extract env s
    match audio_probe_classify (env.probeAudio s.audio_path) with
    | Except.ok live_stream =>
      let call : BuildCall :=
        { kind := BuildKind.audio
          ffmpeg_parameters := s.ffmpeg_parameters
          path := s.audio_path
          imageCommands := []
          headers := s.headers
          isLive := live_stream }
      match s.stream_audio with
      | none => (Except.error StreamError.attributeError, [call])
      | some _ => (Except.ok { s with stream_audio := some call.args }, [call])
    | Except.error StreamError.noAudioSourceFound =>
      if s.audio_flags &&& MediaStream.REQUIRED ≠ 0 then
        (Except.error StreamError.noAudioSourceFound, [])
      else (Except.ok { s with stream_audio := none }, [])
    | Except.error e => (Except.error e, [])
  else (Except.ok s, [])

/-- `MediaStream.check_stream` (media_stream.py lines 130-216): the video
half, then the audio-locator defaulting of lines 177-178 (an explicit falsy
audio locator inherits the, possibly link-extracted, video locator), then the
audio half.  An escaping exception aborts resolution; the build-call log is
returned alongside. -/
def MediaStream.check_stream (env : Env) (s : MediaStreamState) :
    Except StreamError MediaStreamState × List BuildCall :=
  match MediaStream.video_phase env s with
  | (Except.error e, calls) => (Except.error e, calls)
  | (Except.ok s2, calls) =>
    match MediaStream.audio_phase env (MediaStream.default_audio s2) with
    | (r, calls2) => (r, calls ++ calls2)

/-- The video locator actually probed: the extractor's video link when the
original locator is a recognized remote-video-host reference and the video
branch runs, the original locator otherwise. -/
def MediaStream.resolved_media_path (env : Env) (s : MediaStreamState) :
    Option String :=
  if s.video_flags &&& MediaStream.IGNORE = 0 then
    (MediaStream.after_extract env s).media_path
  else s.media_path

/-- The audio locator actually probed, assuming the video half completes
without raising: the audio link shared by the video-side extraction when no
explicit audio locator was given, then the defaulting to the resolved video
locator, then the audio-side extraction. -/
def MediaStream.resolved_audio_path (env : Env) (s : MediaStreamState) :
    Option String :=
  let s1 :=
    if s.video_flags &&& MediaStream.IGNORE = 0 then
      MediaStream.after_extract env s
    else s
  let s2 := MediaStream.default_audio s1
  if s.audio_flags &&& MediaStream.IGNORE = 0 then
    (MediaStream.audio_extract env s2).audio_path
  else s2.audio_path

/-! ### Behaviour of the video half on a missing video track -/

/-- Link extraction only rewrites the two locators. -/
theorem MediaStream.after_extract_video_flags (env : Env)
    (s : MediaStreamState) :
    (MediaStream.after_extract env s).video_flags = s.video_flags := by
  unfold MediaStream.after_extract
  split <;> rfl

/-- When the canonical video flags contain `REQUIRED` and the probe of the
resolved video locator reports a missing video track, the video half
re-raises `NoVideoSourceFound`. -/
theorem MediaStream.video_phase_required_missing (env : Env)
    (s : MediaStreamState)
    (hIgn : s.video_flags &&& MediaStream.IGNORE = 0)
    (hReq : s.video_flags &&& MediaStream.REQUIRED ≠ 0)
    (hprobe : env.probeVideo (MediaStream.resolved_media_path env s)
      = ProbeResult.noVideoSourceFound) :
    MediaStream.video_phase env s
      = (Except.error StreamError.noVideoSourceFound, []) := by
  have hres : MediaStream.resolved_media_path env s
      = (MediaStream.after_extract env s).media_path := by
    unfold MediaStream.resolved_media_path
    rw [if_pos hIgn]
  rw [hres] at hprobe
  simp only [MediaStream.video_phase, if_pos hIgn, hprobe, video_probe_classify,
    MediaStream.after_extract_video_flags, if_pos hReq]

/-- When the canonical video flags contain neither `IGNORE` nor `REQUIRED`
and the probe of the resolved video locator reports a missing video track,
the video half succeeds with the video pipeline dropped and no build call. -/
theorem MediaStream.video_phase_auto_missing (env : Env)
    (s : MediaStreamState)
    (hIgn : s.video_flags &&& MediaStream.IGNORE = 0)
    (hReq : s.video_flags &&& MediaStream.REQUIRED = 0)
    (hprobe : env.probeVideo (MediaStream.resolved_media_path env s)
      = ProbeResult.noVideoSourceFound) :
    MediaStream.video_phase env s
      = (Except.ok { MediaStream.after_extract env s with stream_video := none },
         []) := by
  have hres : MediaStream.resolved_media_path env s
      = (MediaStream.after_extract env s).media_path := by
    unfold MediaStream.resolved_media_path
    rw [if_pos hIgn]
  rw [hres] at hprobe
  have hReq2 : ¬ s.video_flags &&& MediaStream.REQUIRED ≠ 0 := by
    simp [hReq]
  simp only [MediaStream.video_phase, if_pos hIgn, hprobe, video_probe_classify,
    MediaStream.after_extract_video_flags, if_neg hReq2]

/-- Claim C1: for every StreamRequest whose video FlagSet canonicalizes to
`REQUIRED`, if the probe of the (resolved) video locator reports a missing
video track, resolution fails: `check_stream` raises `NoVideoSourceFound`,
which propagates to the caller. -/
theorem C1_required_video_missing_raises (env : Env) (mp ap : Option String)
    (araw vraw : Nat) (hd fp yp : Option String)
    (hcanon : MediaStream.filter_flags vraw &&& MediaStream.combined_flags_value
      = MediaStream.REQUIRED)
    (hprobe : env.probeVideo (MediaStream.resolved_media_path env
        (MediaStream.init mp ap araw vraw hd fp yp))
      = ProbeResult.noVideoSourceFound) :
    (MediaStream.check_stream env
        (MediaStream.init mp ap araw vraw hd fp yp)).1
      = Except.error StreamError.noVideoSourceFound := by
  set s := MediaStream.init mp ap araw vraw hd fp yp with hs
  have hvf : s.video_flags = MediaStream.filter_flags vraw := rfl
  have h7 : MediaStream.filter_flags vraw % 8 = 2 := by
    have h := hcanon
    rw [show MediaStream.combined_flags_value = 7 from rfl, nat_and_seven] at h
    exact h
  have hIgn : s.video_flags &&& MediaStream.IGNORE = 0 := by
    rw [hvf, show MediaStream.IGNORE = 4 from rfl, nat_and_four]
    omega
  have hReq : s.video_flags &&& MediaStream.REQUIRED ≠ 0 := by
    rw [hvf, show MediaStream.REQUIRED = 2 from rfl, nat_and_two]
    omega
  have hvp := MediaStream.video_phase_required_missing env s hIgn hReq hprobe
  unfold MediaStream.check_stream
  rw [hvp]

/-- Environment used to instantiate claim C1: the probe stub reports a
missing video track for every locator. -/
def C1wEnv : Env :=
  { is_valid := fun _ => false
    extract := fun _ => ("", "")
    probeVideo := fun _ => ProbeResult.noVideoSourceFound
    probeAudio := fun _ => ProbeResult.ok }

theorem C1_required_video_missing_raises_witness :
    MediaStream.filter_flags 2 &&& MediaStream.combined_flags_value
      = MediaStream.REQUIRED
    ∧ (MediaStream.check_stream C1wEnv
        (MediaStream.init (some "a.mp4") none 0 2 none none none)).1
      = Except.error StreamError.noVideoSourceFound :=
  ⟨by decide,
   C1_required_video_missing_raises C1wEnv (some "a.mp4") none 0 2 none none
     none (by decide) (by decide)⟩

/-! ### Claim C2 -/

theorem MediaStream.after_extract_audio_flags (env : Env)
    (s : MediaStreamState) :
    (MediaStream.after_extract env s).audio_flags = s.audio_flags := by
  unfold MediaStream.after_extract
  split <;> rfl

theorem MediaStream.after_extract_stream_audio (env : Env)
    (s : MediaStreamState) :
    (MediaStream.after_extract env s).stream_audio = s.stream_audio := by
  unfold MediaStream.after_extract
  split <;> rfl

theorem MediaStream.audio_extract_audio_path (env : Env)
    (t : MediaStreamState) :
    (MediaStream.audio_extract env t).audio_path
      = if env.is_valid t.audio_path then some (env.extract t.audio_path).2
        else t.audio_path := by
  unfold MediaStream.audio_extract
  split <;> rfl

theorem MediaStream.audio_extract_stream_audio (env : Env)
    (t : MediaStreamState) :
    (MediaStream.audio_extract env t).stream_audio = t.stream_audio := by
  unfold MediaStream.audio_extract
  split <;> rfl

theorem MediaStream.audio_extract_stream_video (env : Env)
    (t : MediaStreamState) :
    (MediaStream.audio_extract env t).stream_video = t.stream_video := by
  unfold MediaStream.audio_extract
  split <;> rfl

/-- When the audio kind is not ignored, the audio pipeline object is present
and the probe of the extracted audio locator reports `Ok`, the audio half
succeeds, leaves the video pipeline untouched and keeps the audio pipeline
present. -/
theorem MediaStream.audio_phase_ok_isSome (env : Env) (t : MediaStreamState)
    (hIgn : t.audio_flags &&& MediaStream.IGNORE = 0)
    (hsa : t.stream_audio ≠ none)
    (hprobe : env.probeAudio (MediaStream.audio_extract env t).audio_path
      = ProbeResult.ok) :
    ∃ r calls, MediaStream.audio_phase env t = (Except.ok r, calls)
      ∧ r.stream_video = t.stream_video ∧ r.stream_audio.isSome = true := by
  obtain ⟨v, hv⟩ := Option.ne_none_iff_exists'.mp hsa
  have hsa2 : (MediaStream.audio_extract env t).stream_audio = some v := by
    rw [MediaStream.audio_extract_stream_audio, hv]
  unfold MediaStream.audio_phase
  rw [if_pos hIgn]
  simp only [hprobe, audio_probe_classify, hsa2]
  exact ⟨_, _, rfl, MediaStream.audio_extract_stream_video env t, rfl⟩

/-- Environment of the claim C2 counterexample: the video probe stub reports
a missing video track and the audio probe stub reports `Ok` for every
locator; no locator is a remote-video-host reference. -/
def C2cexEnv : Env :=
  { is_valid := fun _ => false
    extract := fun _ => ("", "")
    probeVideo := fun _ => ProbeResult.noVideoSourceFound
    probeAudio := fun _ => ProbeResult.ok }

/-- StreamRequest of the claim C2 counterexample: video flags `AUTO_DETECT`,
audio flags `IGNORE`. -/
def C2cexState : MediaStreamState :=
  MediaStream.init (some "v.mp4") none 4 1 none none none

/-- Claim C2, counterexample: a StreamRequest whose video FlagSet
canonicalizes to `AUTO_DETECT`, whose video probe reports a missing video
track, and whose audio probe reports `Ok`, yet resolution (which succeeds
with the video pipeline absent) leaves the audio pipeline absent as well,
because the audio FlagSet is `IGNORE`.  This refutes the claim as stated:
the audio-pipeline-present conclusion needs the audio kind not to be
ignored. -/
theorem C2_counterexample :
    MediaStream.filter_flags 1 &&& MediaStream.combined_flags_value
      = MediaStream.AUTO_DETECT
    ∧ C2cexEnv.probeVideo
        (MediaStream.resolved_media_path C2cexEnv C2cexState)
      = ProbeResult.noVideoSourceFound
    ∧ C2cexEnv.probeAudio
        (MediaStream.resolved_audio_path C2cexEnv C2cexState)
      = ProbeResult.ok
    ∧ Except.map (fun r => (r.stream_video, r.stream_audio.isSome))
        (MediaStream.check_stream C2cexEnv C2cexState).1
      = Except.ok (none, false) := by
  exact ⟨by decide, rfl, rfl, rfl⟩

/-- Claim C2 as amended: for every StreamRequest whose video FlagSet
canonicalizes to `AUTO_DETECT`, if the probe of the (resolved) video locator
reports a missing video track, and the audio FlagSet does not canonicalize
to `IGNORE`, and the audio probe of the (resolved) audio locator reports
`Ok`, then resolution succeeds without raising, with the video pipeline
absent and the audio pipeline present. -/
theorem C2_amended_auto_video_missing (env : Env) (mp ap : Option String)
    (araw vraw : Nat) (hd fp yp : Option String)
    (hcanon : MediaStream.filter_flags vraw &&& MediaStream.combined_flags_value
      = MediaStream.AUTO_DETECT)
    (haud : MediaStream.filter_flags araw &&& MediaStream.IGNORE = 0)
    (hprobeV : env.probeVideo (MediaStream.resolved_media_path env
        (MediaStream.init mp ap araw vraw hd fp yp))
      = ProbeResult.noVideoSourceFound)
    (hprobeA : env.probeAudio (MediaStream.resolved_audio_path env
        (MediaStream.init mp ap araw vraw hd fp yp))
      = ProbeResult.ok) :
    Except.map (fun r => (r.stream_video, r.stream_audio.isSome))
        (MediaStream.check_stream env
          (MediaStream.init mp ap araw vraw hd fp yp)).1
      = Except.ok (none, true) := by
  set s := MediaStream.init mp ap araw vraw hd fp yp with hs
  have hvf : s.video_flags = MediaStream.filter_flags vraw := rfl
  have haf : s.audio_flags = MediaStream.filter_flags araw := rfl
  have h7 : MediaStream.filter_flags vraw % 8 = 1 := by
    have h := hcanon
    rw [show MediaStream.combined_flags_value = 7 from rfl, nat_and_seven] at h
    exact h
  have hIgn : s.video_flags &&& MediaStream.IGNORE = 0 := by
    rw [hvf, show MediaStream.IGNORE = 4 from rfl, nat_and_four]
    omega
  have hReq : s.video_flags &&& MediaStream.REQUIRED = 0 := by
    rw [hvf, show MediaStream.REQUIRED = 2 from rfl, nat_and_two]
    omega
  have hvp := MediaStream.video_phase_auto_missing env s hIgn hReq hprobeV
  set t := MediaStream.default_audio
    { MediaStream.after_extract env s with stream_video := none } with ht
  have htIgn : t.audio_flags &&& MediaStream.IGNORE = 0 := by
    have h1 : t.audio_flags = s.audio_flags := by
      show (MediaStream.after_extract env s).audio_flags = s.audio_flags
      exact MediaStream.after_extract_audio_flags env s
    rw [h1, haf]
    exact haud
  have htsa : t.stream_audio ≠ none := by
    have h1 : t.stream_audio = s.stream_audio := by
      show (MediaStream.after_extract env s).stream_audio = s.stream_audio
      exact MediaStream.after_extract_stream_audio env s
    rw [h1, hs]
    unfold MediaStream.init
    simp [haud]
  have hpath : (MediaStream.audio_extract env t).audio_path
      = MediaStream.resolved_audio_path env s := by
    have htap : t.audio_path
        = (MediaStream.default_audio
            (MediaStream.after_extract env s)).audio_path := rfl
    simp only [MediaStream.resolved_audio_path, if_pos hIgn,
      if_pos (haf ▸ haud : s.audio_flags &&& MediaStream.IGNORE = 0)]
    rw [MediaStream.audio_extract_audio_path,
      MediaStream.audio_extract_audio_path, htap]
  rw [← hpath] at hprobeA
  obtain ⟨r, calls, hap, hsv, hsaSome⟩ :=
    MediaStream.audio_phase_ok_isSome env t htIgn htsa hprobeA
  have hsvt : t.stream_video = none := rfl
  unfold MediaStream.check_stream
  rw [hvp]
  simp only [← ht, hap, Except.map, hsv, hsvt, hsaSome]

/-- Environment used to instantiate the amended claim C2. -/
def C2wEnv : Env :=
  { is_valid := fun _ => false
    extract := fun _ => ("", "")
    probeVideo := fun _ => ProbeResult.noVideoSourceFound
    probeAudio := fun _ => ProbeResult.ok }

theorem C2_amended_auto_video_missing_witness :
    MediaStream.filter_flags 1 &&& MediaStream.combined_flags_value
      = MediaStream.AUTO_DETECT
    ∧ Except.map (fun r => (r.stream_video, r.stream_audio.isSome))
        (MediaStream.check_stream C2wEnv
          (MediaStream.init (some "v.mp4") none 1 1 none none none)).1
      = Except.ok (none, true) :=
  ⟨by decide,
   C2_amended_auto_video_missing C2wEnv (some "v.mp4") none 1 1 none none none
     (by decide) (by decide) (by decide) (by decide)⟩

/-! ## Predicate filter engine: `pytgcalls/filters.py`

The update type carries the variants the provided leaf filters inspect, plus
a variant standing for every other update type.  A participant's `action` is
the `GroupCallParticipant.Action` flag bitmask, modelled as `Nat`.
-/

/-- The fields of `GroupCallParticipant` the filters read. -/
structure GroupCallParticipant where
  user_id : Int
  action : Nat
deriving DecidableEq

/-- An incoming update, by type tag. -/
inductive Update
  | updatedGroupCallParticipant (chat_id : Int) (participant : GroupCallParticipant)
  | chatUpdate (chat_id : Int) (status : Nat)
  | streamAudioEnded (chat_id : Int)
  | streamVideoEnded (chat_id : Int)
  | otherUpdate (chat_id : Int)
deriving DecidableEq

/-- Whether an update is an `UpdatedGroupCallParticipant`. -/
def Update.isUpdatedGroupCallParticipant : Update → Bool
  | Update.updatedGroupCallParticipant _ _ => true
  | _ => false

/-- `call_participant.__call__` (filters.py lines 173-182), literally: on an
`UpdatedGroupCallParticipant` update, `None` flags return `True`; otherwise
the bitwise intersection `self.flags & update.participant.action` is computed
on its own line, its value is discarded, and control falls through to
`return False`. -/
def call_participant_call (flags : Option Nat) (u : Update) : Bool :=
  match u with
  | Update.updatedGroupCallParticipant _ p =>
    match flags with
    | none => true
    | some f =>
      let _ := f &&& p.action
      false
  | _ => false

/-- Claim C3 evaluated on a failing input: the filter is built with a flags
bitmask that intersects the participant's action (`1 &&& 1 ≠ 0`), so by the
claim it should return `True`; the code returns `False` because line 181
discards the intersection and falls through to `return False`. -/
theorem C3_call_participant_discards_intersection :
    (1 : Nat) &&& 1 ≠ 0
    ∧ call_participant_call (some 1)
        (Update.updatedGroupCallParticipant 7 { user_id := 5, action := 1 })
      = false := by
  exact ⟨by decide, rfl⟩

/-- Claim C10: a `call_participant` filter constructed with `flags = None`
returns `True` exactly on `UpdatedGroupCallParticipant` updates and `False`
on every update of any other type. -/
theorem C10_call_participant_none_flags (u : Update) :
    call_participant_call none u = u.isUpdatedGroupCallParticipant := by
  cases u <;> rfl

/-! ### Combinators (filters.py lines 48-111)

Whether a child filter is a coroutine function or is shipped to the executor,
both dispatch branches of `__call__` evaluate the child exactly once; the
dispatch is therefore modelled as a single application.  To observe
evaluations, filter bodies thread an instrumentation counter: `CountM`
carries the number of times the instrumented leaf has run. -/

/-- Result and updated instrumentation counter. -/
def CountM (α : Type) : Type := Nat → α × Nat

/-- A filter body, evaluated against an update under the counter state. -/
def EvFilter : Type := Update → CountM Bool

/-- An uninstrumented leaf predicate. -/
def plainFilter (f : Update → Bool) : EvFilter := fun u n => (f u, n)

/-- An instrumented leaf: bumps the evaluation counter each time it runs. -/
def countedFilter (f : Update → Bool) : EvFilter := fun u n => (f u, n + 1)

/-- `AndFilter.__call__` (filters.py lines 53-78): evaluate the base; if it
is falsy return `False` without evaluating the other; otherwise evaluate the
other and return `x and y`. -/
def AndFilter_call (base other : EvFilter) : EvFilter := fun u n =>
  let xr := base u n
  if xr.1 = false then (false, xr.2)
  else
    let yr := other u xr.2
    (xr.1 && yr.1, yr.2)

/-- `OrFilter.__call__` (filters.py lines 86-111): evaluate the base; if it
is truthy return `True` without evaluating the other; otherwise evaluate the
other and return `x or y`. -/
def OrFilter_call (base other : EvFilter) : EvFilter := fun u n =>
  let xr := base u n
  if xr.1 = true then (true, xr.2)
  else
    let yr := other u xr.2
    (xr.1 || yr.1, yr.2)

/-- Claim C7: the combinators short-circuit.  For every event, when the base
of an `AndFilter` evaluates to false, the combinator returns false and the
evaluation counter of the instrumented second filter stays at zero; when the
base of an `OrFilter` evaluates to true, the combinator returns true and the
counter of the instrumented second filter stays at zero. -/
theorem C7_and_or_short_circuit (p q : Update → Bool) (u : Update) :
    (p u = false →
      AndFilter_call (plainFilter p) (countedFilter q) u 0 = (false, 0))
    ∧ (p u = true →
      OrFilter_call (plainFilter p) (countedFilter q) u 0 = (true, 0)) := by
  constructor
  · intro h
    simp [AndFilter_call, plainFilter, h]
  · intro h
    simp [OrFilter_call, plainFilter, h]

theorem C7_and_or_short_circuit_witness :
    AndFilter_call (plainFilter fun _ => false) (countedFilter fun _ => true)
        (Update.otherUpdate 0) 0
      = (false, 0)
    ∧ OrFilter_call (plainFilter fun _ => true) (countedFilter fun _ => true)
        (Update.otherUpdate 0) 0
      = (true, 0) :=
  ⟨(C7_and_or_short_circuit (fun _ => false) (fun _ => true)
      (Update.otherUpdate 0)).1 rfl,
   (C7_and_or_short_circuit (fun _ => true) (fun _ => true)
      (Update.otherUpdate 0)).2 rfl⟩

/-! ### Claims C8 and C9: the recorded build calls -/

theorem MediaStream.after_extract_media_path (env : Env)
    (s : MediaStreamState) :
    (MediaStream.after_extract env s).media_path
      = if env.is_valid s.media_path then some (env.extract s.media_path).1
        else s.media_path := by
  unfold MediaStream.after_extract
  split <;> rfl

theorem MediaStream.after_extract_audio_path (env : Env)
    (s : MediaStreamState) :
    (MediaStream.after_extract env s).audio_path
      = if env.is_valid s.media_path then
          (if pyFalsy s.audio_path then some (env.extract s.media_path).2
           else s.audio_path)
        else s.audio_path := by
  unfold MediaStream.after_extract
  split <;> rfl

/-- The video half records no build call, or exactly the one rebuilding the
video invocation from the extracted locator and the classified probe
outcome. -/
theorem MediaStream.video_phase_calls_sub (env : Env) (s : MediaStreamState) :
    (MediaStream.video_phase env s).2 = []
    ∨ ∃ ic lv,
        video_probe_classify
            (env.probeVideo (MediaStream.after_extract env s).media_path)
          = Except.ok (ic, lv)
        ∧ (MediaStream.video_phase env s).2
          = [{ kind := BuildKind.video
               ffmpeg_parameters :=
                 (MediaStream.after_extract env s).ffmpeg_parameters
               path := (MediaStream.after_extract env s).media_path
               imageCommands := ic
               headers := (MediaStream.after_extract env s).headers
               isLive := lv }] := by
  by_cases hIgn : s.video_flags &&& MediaStream.IGNORE = 0
  · rcases hcl : video_probe_classify
        (env.probeVideo (MediaStream.after_extract env s).media_path)
      with e | ⟨ic, lv⟩
    · left
      cases e
      all_goals simp only [MediaStream.video_phase, if_pos hIgn, hcl]
      all_goals (split <;> rfl)
    · right
      refine ⟨ic, lv, rfl, ?_⟩
      rcases hsv : (MediaStream.after_extract env s).stream_video with _ | v <;>
        simp [MediaStream.video_phase, if_pos hIgn, hcl, hsv]
  · left
    simp [MediaStream.video_phase, if_neg hIgn]

/-- The audio half records no build call, or exactly the one rebuilding the
audio invocation from the extracted audio locator. -/
theorem MediaStream.audio_phase_calls_sub (env : Env) (t : MediaStreamState) :
    (MediaStream.audio_phase env t).2 = []
    ∨ ∃ lv,
        (MediaStream.audio_phase env t).2
          = [{ kind := BuildKind.audio
               ffmpeg_parameters :=
                 (MediaStream.audio_extract env t).ffmpeg_parameters
               path := (MediaStream.audio_extract env t).audio_path
               imageCommands := []
               headers := (MediaStream.audio_extract env t).headers
               isLive := lv }] := by
  by_cases hIgn : t.audio_flags &&& MediaStream.IGNORE = 0
  · rcases hcl : audio_probe_classify
        (env.probeAudio (MediaStream.audio_extract env t).audio_path)
      with e | lv
    · left
      cases e
      all_goals simp only [MediaStream.audio_phase, if_pos hIgn, hcl]
      all_goals (split <;> rfl)
    · right
      refine ⟨lv, ?_⟩
      rcases hsa : (MediaStream.audio_extract env t).stream_audio with _ | v <;>
        simp [MediaStream.audio_phase, if_pos hIgn, hcl, hsa]
  · left
    simp [MediaStream.audio_phase, if_neg hIgn]

/-- A successful video half leaves the resolved video locator in
`media_path` and, when the video branch ran, the shared extracted audio
link in `audio_path`. -/
theorem MediaStream.video_phase_ok_state (env : Env) (s : MediaStreamState)
    (r : MediaStreamState)
    (h : (MediaStream.video_phase env s).1 = Except.ok r) :
    r.media_path = MediaStream.resolved_media_path env s
    ∧ r.audio_path
      = (if s.video_flags &&& MediaStream.IGNORE = 0 then
          (MediaStream.after_extract env s).audio_path
         else s.audio_path) := by
  by_cases hIgn : s.video_flags &&& MediaStream.IGNORE = 0
  · rw [MediaStream.resolved_media_path, if_pos hIgn]
    rcases hcl : video_probe_classify
        (env.probeVideo (MediaStream.after_extract env s).media_path)
      with e | ⟨ic, lv⟩
    · cases e <;>
        simp only [MediaStream.video_phase, if_pos hIgn, hcl] at h <;>
        first
        | (simp only [if_pos hIgn]
           split at h <;> cases h <;> exact ⟨rfl, rfl⟩)
        | (cases h)
    · rcases hsv : (MediaStream.after_extract env s).stream_video with _ | v
      · simp only [MediaStream.video_phase, if_pos hIgn, hcl, hsv] at h
        cases h
      · simp only [MediaStream.video_phase, if_pos hIgn, hcl, hsv] at h
        cases h
        exact ⟨rfl, by rw [if_pos hIgn]⟩
  · rw [MediaStream.resolved_media_path, if_neg hIgn]
    simp only [MediaStream.video_phase, if_neg hIgn] at h
    cases h
    exact ⟨rfl, by rw [if_neg hIgn]⟩

/-- The build-call log of a full resolution: the video half's calls,
followed by the audio half's calls when the video half succeeded. -/
theorem MediaStream.check_stream_calls_split (env : Env)
    (s : MediaStreamState) :
    (MediaStream.check_stream env s).2 = (MediaStream.video_phase env s).2
    ∨ ∃ s2, (MediaStream.video_phase env s).1 = Except.ok s2
        ∧ (MediaStream.check_stream env s).2
          = (MediaStream.video_phase env s).2
            ++ (MediaStream.audio_phase env
                (MediaStream.default_audio s2)).2 := by
  unfold MediaStream.check_stream
  rcases hvp : MediaStream.video_phase env s with ⟨o, calls⟩
  cases o with
  | error e => left; simp [hvp]
  | ok s2 =>
    right
    refine ⟨s2, by simp [hvp], ?_⟩
    rcases hap : MediaStream.audio_phase env (MediaStream.default_audio s2)
      with ⟨o2, calls2⟩
    simp [hvp, hap]

theorem MediaStream.default_audio_audio_path (u : MediaStreamState) :
    (MediaStream.default_audio u).audio_path
      = if pyFalsy u.audio_path then u.media_path else u.audio_path := rfl

/-- Claim C8: for every StreamRequest with no explicit audio locator whose
video locator is a recognized remote-video-host reference resolved by the
link extractor to the pair (vLink, aLink), every locator passed to the
command builder for the audio pipeline equals aLink, and every locator
passed for the video pipeline equals vLink.  (The hypotheses that the
extracted audio link is itself neither a recognized remote-video-host
reference nor empty reflect spec section 4.3: result links are opaque direct
locators.) -/
theorem C8_extracted_audio_link_inherited (env : Env) (mp : Option String)
    (araw vraw : Nat) (hd fp yp : Option String) (vLink aLink : String)
    (hvalid : env.is_valid mp = true)
    (hext : env.extract mp = (vLink, aLink))
    (hdirect : env.is_valid (some aLink) = false)
    (hne : aLink ≠ "") :
    ((MediaStream.check_stream env
        (MediaStream.init mp none araw vraw hd fp yp)).2.all fun c =>
      (!decide (c.kind = BuildKind.audio) || decide (c.path = some aLink))
        && (!decide (c.kind = BuildKind.video) || decide (c.path = some vLink)))
      = true := by
  set s := MediaStream.init mp none araw vraw hd fp yp with hs
  have hsm : s.media_path = mp := rfl
  have hsa : s.audio_path = none := rfl
  have hvmedia : (MediaStream.after_extract env s).media_path = some vLink := by
    rw [MediaStream.after_extract_media_path, hsm, hvalid]
    simp [hext]
  have hvaudio : (MediaStream.after_extract env s).audio_path = some aLink := by
    rw [MediaStream.after_extract_audio_path, hsm, hsa, hvalid]
    simp [hext, pyFalsy]
  rw [List.all_eq_true]
  intro c hc
  have hvideo_case : ∀ c2 ∈ (MediaStream.video_phase env s).2,
      ((!decide (c2.kind = BuildKind.audio) || decide (c2.path = some aLink))
        && (!decide (c2.kind = BuildKind.video)
            || decide (c2.path = some vLink))) = true := by
    intro c2 hc2
    rcases MediaStream.video_phase_calls_sub env s with h0 | ⟨ic, lv, hcl, hlist⟩
    · rw [h0] at hc2
      cases hc2
    · rw [hlist] at hc2
      simp only [List.mem_singleton] at hc2
      subst hc2
      simp [hvmedia]
  rcases MediaStream.check_stream_calls_split env s with hsplit | ⟨s2, hok, hsplit⟩
  · rw [hsplit] at hc
    exact hvideo_case c hc
  · rw [hsplit] at hc
    rcases List.mem_append.mp hc with hcv | hca
    · exact hvideo_case c hcv
    · rcases MediaStream.audio_phase_calls_sub env (MediaStream.default_audio s2)
        with h0 | ⟨lv, hlist⟩
      · rw [h0] at hca
        cases hca
      · rw [hlist] at hca
        simp only [List.mem_singleton] at hca
        subst hca
        obtain ⟨hs2m, hs2a⟩ := MediaStream.video_phase_ok_state env s s2 hok
        by_cases hIgn : s.video_flags &&& MediaStream.IGNORE = 0
        · have h1 : s2.audio_path = some aLink := by
            rw [hs2a, if_pos hIgn, hvaudio]
          have h2 : (MediaStream.default_audio s2).audio_path = some aLink := by
            rw [MediaStream.default_audio_audio_path, h1]
            simp [pyFalsy, hne]
          have h3 : (MediaStream.audio_extract env
              (MediaStream.default_audio s2)).audio_path = some aLink := by
            rw [MediaStream.audio_extract_audio_path, h2, hdirect]
            simp
          simp [h3]
        · have h1 : s2.audio_path = none := by
            rw [hs2a, if_neg hIgn, hsa]
          have h1m : s2.media_path = mp := by
            rw [hs2m, MediaStream.resolved_media_path, if_neg hIgn, hsm]
          have h2 : (MediaStream.default_audio s2).audio_path = mp := by
            rw [MediaStream.default_audio_audio_path, h1, h1m]
            simp [pyFalsy]
          have h3 : (MediaStream.audio_extract env
              (MediaStream.default_audio s2)).audio_path = some aLink := by
            rw [MediaStream.audio_extract_audio_path, h2, hvalid]
            simp [hext]
          simp [h3]

/-- Environment used to instantiate claim C8: only the locator URL is a
recognized remote-video-host reference, and it extracts to the pair
(vL, aL). -/
def C8wEnv : Env :=
  { is_valid := fun o => decide (o = some "URL")
    extract := fun _ => ("vL", "aL")
    probeVideo := fun _ => ProbeResult.ok
    probeAudio := fun _ => ProbeResult.ok }

theorem C8_extracted_audio_link_inherited_witness :
    C8wEnv.is_valid (some "URL") = true
    ∧ C8wEnv.extract (some "URL") = ("vL", "aL")
    ∧ C8wEnv.is_valid (some "aL") = false
    ∧ "aL" ≠ ""
    ∧ ((MediaStream.check_stream C8wEnv
          (MediaStream.init (some "URL") none 1 1 none none none)).2.all
        fun c =>
          (!decide (c.kind = BuildKind.audio) || decide (c.path = some "aL"))
            && (!decide (c.kind = BuildKind.video)
                || decide (c.path = some "vL"))) = true :=
  ⟨by decide, rfl, by decide, by decide,
   C8_extracted_audio_link_inherited C8wEnv (some "URL") 1 1 none none none
     "vL" "aL" (by decide) rfl (by decide) (by decide)⟩

theorem MediaStream.after_extract_ffmpeg_parameters (env : Env)
    (s : MediaStreamState) :
    (MediaStream.after_extract env s).ffmpeg_parameters
      = s.ffmpeg_parameters := by
  unfold MediaStream.after_extract
  split <;> rfl

theorem MediaStream.after_extract_headers (env : Env) (s : MediaStreamState) :
    (MediaStream.after_extract env s).headers = s.headers := by
  unfold MediaStream.after_extract
  split <;> rfl

theorem MediaStream.video_phase_ignored (env : Env) (s : MediaStreamState)
    (h : ¬ s.video_flags &&& MediaStream.IGNORE = 0) :
    MediaStream.video_phase env s = (Except.ok s, []) := by
  simp [MediaStream.video_phase, if_neg h]


/-- Whether a fixed block of arguments occurs contiguously in an argument
list. -/
def hasBlock (block : List String) : List String → Bool
  | [] => block.isEmpty
  | x :: xs => (block.isPrefixOf (x :: xs)) || hasBlock block xs

/-- The header arguments of the modelled `build_command`. -/
def headerArgs : Option String → List String
  | some h => ["-headers", h]
  | none => []

/-- Claim C9: for every StreamRequest whose video probe reports a still
image, the rebuilt video invocation argument list contains the fixed
image-loop arguments immediately preceding the input-locator argument (the
singleton `toList` of the resolved video locator); and when the probe
reports `Ok`, the built video argument list nowhere contains the image-loop
argument block. -/
theorem C9_still_image_loop_arguments (env : Env) (m : String)
    (ap : Option String) (araw vraw : Nat) (hd fp yp : Option String) :
    (env.probeVideo (MediaStream.resolved_media_path env
        (MediaStream.init (some m) ap araw vraw hd fp yp))
      = ProbeResult.imageSourceFound →
      ((MediaStream.check_stream env
          (MediaStream.init (some m) ap araw vraw hd fp yp)).2.all fun c =>
        !decide (c.kind = BuildKind.video)
          || decide (c.args
              = ["ffmpeg"] ++ fp.toList ++ image_commands_list
                ++ (MediaStream.resolved_media_path env
                    (MediaStream.init (some m) ap araw vraw hd fp yp)).toList
                ++ headerArgs hd ++ ["-to", "0"])) = true)
    ∧ (env.probeVideo (MediaStream.resolved_media_path env
        (MediaStream.init (some m) ap araw vraw hd fp yp))
      = ProbeResult.ok →
      ((MediaStream.check_stream env
          (MediaStream.init (some m) ap araw vraw hd fp yp)).2.all fun c =>
        !decide (c.kind = BuildKind.video)
          || !hasBlock image_commands_list c.args) = true) := by
  set s := MediaStream.init (some m) ap araw vraw hd fp yp with hs
  have hfp : (MediaStream.after_extract env s).ffmpeg_parameters = fp :=
    MediaStream.after_extract_ffmpeg_parameters env s
  have hhd : (MediaStream.after_extract env s).headers = hd :=
    MediaStream.after_extract_headers env s
  have hsmp : s.media_path = some m := rfl
  have hsome : ∃ l, (MediaStream.after_extract env s).media_path = some l := by
    rw [MediaStream.after_extract_media_path]
    rcases hv : env.is_valid s.media_path
    · exact ⟨m, by simp [hv, hsmp]⟩
    · exact ⟨(env.extract s.media_path).1, by simp [hv]⟩
  obtain ⟨l, hl⟩ := hsome
  constructor
  · intro hpr
    rw [List.all_eq_true]
    intro c hc
    by_cases hIgn : s.video_flags &&& MediaStream.IGNORE = 0
    · have hres : MediaStream.resolved_media_path env s
          = (MediaStream.after_extract env s).media_path := by
        rw [MediaStream.resolved_media_path, if_pos hIgn]
      rw [hres] at hpr
      have hvideo_case : ∀ c2 ∈ (MediaStream.video_phase env s).2,
          (!decide (c2.kind = BuildKind.video)
            || decide (c2.args
                = ["ffmpeg"] ++ fp.toList ++ image_commands_list
                  ++ (MediaStream.resolved_media_path env s).toList
                  ++ headerArgs hd ++ ["-to", "0"])) = true := by
        intro c2 hc2
        rcases MediaStream.video_phase_calls_sub env s
          with h0 | ⟨ic, lv, hcl, hlist⟩
        · rw [h0] at hc2
          cases hc2
        · rw [hpr] at hcl
          have h1 : video_probe_classify ProbeResult.imageSourceFound
              = Except.ok (image_commands_list, false) := rfl
          rw [h1] at hcl
          cases hcl
          rw [hlist] at hc2
          simp only [List.mem_singleton] at hc2
          subst hc2
          simp [BuildCall.args, build_command, hfp, hhd, hres, headerArgs]
      rcases MediaStream.check_stream_calls_split env s
        with hsplit | ⟨s2, hok, hsplit⟩
      · rw [hsplit] at hc
        exact hvideo_case c hc
      · rw [hsplit] at hc
        rcases List.mem_append.mp hc with hcv | hca
        · exact hvideo_case c hcv
        · rcases MediaStream.audio_phase_calls_sub env
            (MediaStream.default_audio s2) with h0 | ⟨lv, hlist⟩
          · rw [h0] at hca
            cases hca
          · rw [hlist] at hca
            simp only [List.mem_singleton] at hca
            subst hca
            simp
    · have hvp := MediaStream.video_phase_ignored env s hIgn
      rcases MediaStream.check_stream_calls_split env s
        with hsplit | ⟨s2, hok, hsplit⟩
      · rw [hsplit, hvp] at hc
        cases hc
      · rw [hsplit, hvp] at hc
        simp only [List.nil_append] at hc
        rcases MediaStream.audio_phase_calls_sub env
          (MediaStream.default_audio s2) with h0 | ⟨lv, hlist⟩
        · rw [h0] at hc
          cases hc
        · rw [hlist] at hc
          simp only [List.mem_singleton] at hc
          subst hc
          simp
  · intro hpr
    rw [List.all_eq_true]
    intro c hc
    by_cases hIgn : s.video_flags &&& MediaStream.IGNORE = 0
    · have hres : MediaStream.resolved_media_path env s
          = (MediaStream.after_extract env s).media_path := by
        rw [MediaStream.resolved_media_path, if_pos hIgn]
      rw [hres] at hpr
      have hvideo_case : ∀ c2 ∈ (MediaStream.video_phase env s).2,
          (!decide (c2.kind = BuildKind.video)
            || !hasBlock image_commands_list c2.args) = true := by
        intro c2 hc2
        rcases MediaStream.video_phase_calls_sub env s
          with h0 | ⟨ic, lv, hcl, hlist⟩
        · rw [h0] at hc2
          cases hc2
        · rw [hpr] at hcl
          have h1 : video_probe_classify ProbeResult.ok
              = Except.ok ([], false) := rfl
          rw [h1] at hcl
          cases hcl
          rw [hlist] at hc2
          simp only [List.mem_singleton] at hc2
          subst hc2
          have hargs : BuildCall.args
              { kind := BuildKind.video
                ffmpeg_parameters :=
                  (MediaStream.after_extract env s).ffmpeg_parameters
                path := (MediaStream.after_extract env s).media_path
                imageCommands := []
                headers := (MediaStream.after_extract env s).headers
                isLive := false }
              = "ffmpeg" :: (fp.toList ++ [l] ++ headerArgs hd
                ++ ["-to", "0"]) := by
            simp [BuildCall.args, build_command, hfp, hhd, hl, headerArgs]
          rw [hargs]
          rcases fp with _ | p <;> rcases hd with _ | h <;>
            simp [hasBlock, List.isPrefixOf, headerArgs, image_commands_list]
      rcases MediaStream.check_stream_calls_split env s
        with hsplit | ⟨s2, hok, hsplit⟩
      · rw [hsplit] at hc
        exact hvideo_case c hc
      · rw [hsplit] at hc
        rcases List.mem_append.mp hc with hcv | hca
        · exact hvideo_case c hcv
        · rcases MediaStream.audio_phase_calls_sub env
            (MediaStream.default_audio s2) with h0 | ⟨lv, hlist⟩
          · rw [h0] at hca
            cases hca
          · rw [hlist] at hca
            simp only [List.mem_singleton] at hca
            subst hca
            simp
    · have hvp := MediaStream.video_phase_ignored env s hIgn
      rcases MediaStream.check_stream_calls_split env s
        with hsplit | ⟨s2, hok, hsplit⟩
      · rw [hsplit, hvp] at hc
        cases hc
      · rw [hsplit, hvp] at hc
        simp only [List.nil_append] at hc
        rcases MediaStream.audio_phase_calls_sub env
          (MediaStream.default_audio s2) with h0 | ⟨lv, hlist⟩
        · rw [h0] at hc
          cases hc
        · rw [hlist] at hc
          simp only [List.mem_singleton] at hc
          subst hc
          simp

/-- Environment used to instantiate the still-image half of claim C9. -/
def C9wEnvImage : Env :=
  { is_valid := fun _ => false
    extract := fun _ => ("", "")
    probeVideo := fun _ => ProbeResult.imageSourceFound
    probeAudio := fun _ => ProbeResult.ok }

/-- Environment used to instantiate the `Ok` half of claim C9. -/
def C9wEnvOk : Env :=
  { is_valid := fun _ => false
    extract := fun _ => ("", "")
    probeVideo := fun _ => ProbeResult.ok
    probeAudio := fun _ => ProbeResult.ok }

theorem C9_still_image_loop_arguments_witness :
    ((MediaStream.check_stream C9wEnvImage
        (MediaStream.init (some "img.png") none 1 1 none none none)).2.all
      fun c =>
        !decide (c.kind = BuildKind.video)
          || decide (c.args
              = ["ffmpeg"] ++ (none : Option String).toList
                ++ image_commands_list
                ++ (MediaStream.resolved_media_path C9wEnvImage
                    (MediaStream.init (some "img.png") none 1 1 none none
                      none)).toList
                ++ headerArgs none ++ ["-to", "0"])) = true
    ∧ ((MediaStream.check_stream C9wEnvOk
        (MediaStream.init (some "v.mp4") none 1 1 none none none)).2.all
      fun c =>
        !decide (c.kind = BuildKind.video)
          || !hasBlock image_commands_list c.args) = true :=
  ⟨(C9_still_image_loop_arguments C9wEnvImage "img.png" none 1 1 none none
      none).1 (by decide),
   (C9_still_image_loop_arguments C9wEnvOk "v.mp4" none 1 1 none none
      none).2 (by decide)⟩
